import Mathlib

/-!
Verification of the ai-validator core: a shallow embedding of the
confidence fusion engine (`ConfidenceScorer`), the dual-path context
relevance validator (`ContextValidator`), the LLM judge verdict parser
(`LLMJudge.parseValidationResult`) and the validation orchestrator
(`AIValidator.validate`), with theorems settling the frozen claims.

Modelling conventions:
- JavaScript numbers are modelled as rationals (`ℚ`); `Math.round(x*100)/100`
  becomes `round2`.  `Math.min`/`Math.max` become `min`/`max`.
- Fallible collaborators (LLM calls) are modelled as `Except String _`
  oracles; a thrown exception is an `Except.error` carrying its message.
- `Promise.all` fail-fast joining is modelled by sequential `Except` binds;
  which message wins when several checks fail concurrently is unspecified
  in the source, and no claim depends on it.
- String lengths are character counts; after the lexical cleaning step all
  remaining characters are ASCII, where this agrees with JS `.length`.
-/

namespace AIValidatorModel

/- Batteries marks the rational operations `[irreducible]`, which blocks
the `decide` tactic's evaluation of concrete instances; re-marking them
`[local semireducible]` restores it (the kernel ignores reducibility). -/
attribute [local semireducible] Rat.add Rat.sub Rat.mul Rat.inv Rat.ofScientific

/-! ### Data model (types.ts) -/

structure Source where
  content : String
  title : Option String
  url : Option String
  id : Option String
  embedding : Option (List ℚ)
deriving DecidableEq

structure ValidationInput where
  query : String
  response : String
  sources : List Source
deriving DecidableEq

structure AccuracyResult where
  verified : Bool
  verification_rate : ℚ
  reason : Option String
deriving DecidableEq

structure ContextResult where
  source_relevance : ℚ
  source_usage_rate : ℚ
  valid : Bool
deriving DecidableEq

structure HallucinationResult where
  detected : Bool
  risk : ℚ
  hallucinated_parts : Option (List String)
deriving DecidableEq

inductive ConfidenceLevel where
  | high
  | medium
  | low
deriving DecidableEq

structure ConfidenceBreakdown where
  accuracy_score : ℚ
  context_score : ℚ
  hallucination_score : ℚ
  source_quality : ℚ
deriving DecidableEq

structure ConfidenceResult where
  confidence_score : ℚ
  level : ConfidenceLevel
  breakdown : ConfidenceBreakdown
deriving DecidableEq

structure ValidationResult where
  confidence : ℚ
  valid : Bool
  accuracy : AccuracyResult
  context : ContextResult
  hallucination : HallucinationResult
  warnings : List String
  query_type : Option String
  skip_validation : Option Bool
deriving DecidableEq

structure QueryClassificationResult where
  type : String
  confidence : ℚ
  skip_validation : Bool
deriving DecidableEq

/-- The optional `enabledChecks` record taken by `calculateConfidence`.
Fields are `Option Bool` because at the JavaScript level a missing field
behaves like `undefined` and is recovered by the `?? true` defaults. -/
structure EnabledChecks where
  accuracy : Option Bool
  hallucination : Option Bool
deriving DecidableEq

/-- Effective configuration of an `AIValidator` instance after construction
(defaults applied and credential-less toggles forced off). -/
structure AIValidatorConfig where
  confidenceThreshold : ℚ
  enableQueryClassification : Bool
  enableAccuracyCheck : Bool
  enableHallucinationDetection : Bool
  enableContextValidation : Bool
  useLLMJudge : Bool
deriving DecidableEq

/-! ### ConfidenceScorer.ts -/

/-- `Math.round(x * 100) / 100`: round to 2 decimal places.  Mathlib's
`round` rounds halves toward positive infinity, as `Math.round` does. -/
def round2 (x : ℚ) : ℚ := ((round (x * 100) : ℤ) : ℚ) / 100

structure FusionWeights where
  accuracy : ℚ
  context : ℚ
  hallucination : ℚ
  sourceQuality : ℚ
deriving DecidableEq

/-- Weight selection of `ConfidenceScorer.calculateConfidence`
(ConfidenceScorer.ts lines 15-48). -/
def confidenceWeights (accuracyEnabled hallucinationEnabled : Bool) : FusionWeights :=
  if !accuracyEnabled && !hallucinationEnabled then
    { accuracy := 0, context := 0.60, hallucination := 0, sourceQuality := 0.40 }
  else if !accuracyEnabled then
    { accuracy := 0, context := 0.35, hallucination := 0.45, sourceQuality := 0.20 }
  else if !hallucinationEnabled then
    { accuracy := 0.50, context := 0.30, hallucination := 0, sourceQuality := 0.20 }
  else
    { accuracy := 0.35, context := 0.25, hallucination := 0.30, sourceQuality := 0.10 }

/-- Truthiness test `source.title && source.title.length > 0`. -/
def titleNonempty (s : Source) : Bool :=
  match s.title with
  | some t => t.length > 0
  | none => false

/-- Per-source quality before the `Math.min(quality, 1.0)` cap
(ConfidenceScorer.ts lines 102-109). -/
def sourceQualityRaw (s : Source) : ℚ :=
  0.5 + (if s.content.length > 100 then 0.2 else 0)
      + (if s.content.length > 500 then 0.2 else 0)
      + (if titleNonempty s then 0.1 else 0)

/-- Per-source quality after the cap (ConfidenceScorer.ts line 112). -/
def sourceQualityOne (s : Source) : ℚ := min (sourceQualityRaw s) 1

/-- `ConfidenceScorer.calculateSourceQuality` (ConfidenceScorer.ts 95-117). -/
def calculateSourceQuality (sources : List Source) : ℚ :=
  if sources.length = 0 then 0
  else (sources.map sourceQualityOne).sum / (sources.length : ℚ)

/-- `ConfidenceScorer.calculateConfidence` (ConfidenceScorer.ts 4-93). -/
def calculateConfidence (accuracyResult : AccuracyResult) (contextResult : ContextResult)
    (hallucinationResult : HallucinationResult) (sources : List Source)
    (enabledChecks : Option EnabledChecks) : ConfidenceResult :=
  let accuracyEnabled := (enabledChecks.bind (fun e => e.accuracy)).getD true
  let hallucinationEnabled := (enabledChecks.bind (fun e => e.hallucination)).getD true
  let weights := confidenceWeights accuracyEnabled hallucinationEnabled
  let accuracyScore := accuracyResult.verification_rate
  let contextScore := contextResult.source_relevance
  let hallucinationScore := 1 - hallucinationResult.risk
  let sourceQualityScore := calculateSourceQuality sources
  let confidenceScore :=
    accuracyScore * weights.accuracy + contextScore * weights.context +
      hallucinationScore * weights.hallucination + sourceQualityScore * weights.sourceQuality
  let level : ConfidenceLevel :=
    if confidenceScore ≥ 0.8 then .high
    else if confidenceScore ≥ 0.5 then .medium
    else .low
  { confidence_score := round2 confidenceScore
    level := level
    breakdown :=
      { accuracy_score := round2 accuracyScore
        context_score := round2 contextScore
        hallucination_score := round2 hallucinationScore
        source_quality := round2 sourceQualityScore } }

/-! ### ContextValidator.ts -/

/-- JS regex `\w`: ASCII letters, digits and underscore. -/
def jsWordChar (c : Char) : Bool := c.isAlphanum || c = '_'

/-- JS regex `\s`: whitespace and line terminators (written as code points:
space, tab, LF, VT, FF, CR, NBSP, OGHAM, the U+2000 block, LS, PS, NNBSP,
MMSP, IDEOGRAPHIC SPACE, BOM). -/
def jsWhitespace (c : Char) : Bool :=
  c.toNat = 0x20 || (0x9 ≤ c.toNat && c.toNat ≤ 0xD) ||
  c.toNat = 0xA0 || c.toNat = 0x1680 ||
  (0x2000 ≤ c.toNat && c.toNat ≤ 0x200A) ||
  c.toNat = 0x2028 || c.toNat = 0x2029 || c.toNat = 0x202F ||
  c.toNat = 0x205F || c.toNat = 0x3000 || c.toNat = 0xFEFF

/-- `text.toLowerCase().replace(/[^\w\s]/g, '')`: lowercase, then keep only
word characters and whitespace. -/
def jsCleanText (s : String) : String :=
  ((s.data.map Char.toLower).filter (fun c => jsWordChar c || jsWhitespace c)).asString

/-- Split a character list at every character satisfying `p` (the
fragments between separators, in order, empty ones included). -/
def splitChars (p : Char → Bool) : List Char → List (List Char)
  | [] => [[]]
  | c :: rest =>
    if p c then [] :: splitChars p rest
    else
      match splitChars p rest with
      | [] => [[c]]
      | t :: ts => (c :: t) :: ts

/-- `clean.split(/\s+/).filter(word => word.length > n)`: whitespace
tokenization keeping tokens longer than `n` (the empty fragments that
`/\s+/` would merge away are dropped by the same length filter). -/
def tokensLongerThan (s : String) (n : Nat) : List String :=
  ((splitChars jsWhitespace s.data).map List.asString).filter (fun w => w.length > n)

/-- `ContextValidator.wordMatchingValidation` (ContextValidator.ts 39-69). -/
def wordMatchingValidation (query response : String) (sources : List Source) : ContextResult :=
  let cleanResponse := jsCleanText response
  let sourceContent := String.intercalate " " (sources.map (fun s => jsCleanText s.content))
  let responseWords := tokensLongerThan cleanResponse 3
  let sourceWords := tokensLongerThan sourceContent 3
  let wordsInSource := responseWords.countP (fun w => sourceWords.contains w)
  let sourceRelevance : ℚ :=
    if responseWords.length > 0 then (wordsInSource : ℚ) / (responseWords.length : ℚ) else 0.5
  let cleanQuery := jsCleanText query
  let queryWords := tokensLongerThan cleanQuery 2
  let queryWordsInResponse := queryWords.countP (fun w => responseWords.contains w)
  let sourceUsageRate : ℚ :=
    if queryWords.length > 0 then (queryWordsInResponse : ℚ) / (queryWords.length : ℚ) else 0.5
  { source_relevance := min sourceRelevance 1.0
    source_usage_rate := sourceUsageRate
    valid := decide (sourceRelevance > 0.3) }

/-- `ContextValidator.validateContext` (ContextValidator.ts 16-37).
`useLLMJudge` is the effective flag (`useLLMJudge && llmJudge` at the JS
level); `judge` is the LLM judge oracle, erroring when the judge throws. -/
def validateContext (useLLMJudge : Bool)
    (judge : String → String → List Source → Except String ContextResult)
    (query response : String) (sources : List Source) : ContextResult :=
  if sources.length = 0 then
    { source_relevance := 0, source_usage_rate := 0, valid := false }
  else if useLLMJudge then
    match judge query response sources with
    | .ok result => result
    | .error _ => wordMatchingValidation query response sources
  else
    wordMatchingValidation query response sources

/-! ### AIValidator.ts -/

/-- `AIValidator.generateWarnings` (AIValidator.ts, lines 266-290 of the
concatenated ConfidenceScorer.ts source file). -/
def generateWarnings (accuracyResult : AccuracyResult) (contextResult : ContextResult)
    (hallucinationResult : HallucinationResult) (sources : List Source) : List String :=
  (if sources.length = 0 then ["No sources provided - high hallucination risk"] else []) ++
  (if accuracyResult.verification_rate < 0.5 then ["Low accuracy verification rate"] else []) ++
  (if contextResult.source_relevance < 0.3 then ["Low context relevance"] else []) ++
  (if hallucinationResult.risk > 0.5 then ["High hallucination risk detected"] else []) ++
  (if hallucinationResult.detected then ["Hallucination detected in response"] else [])

/-- The external collaborators of the orchestrator, as fallible oracles. -/
structure Collaborators where
  classifyQuery : String → Except String QueryClassificationResult
  checkAccuracy : String → List Source → Except String AccuracyResult
  detectHallucination : String → List Source → Except String HallucinationResult
  llmJudgeValidateContext : String → String → List Source → Except String ContextResult

/-- The body of the `try` block of `AIValidator.validate`: classification
gate, fan-out of the three checks (disabled checks substitute their neutral
defaults without invoking anything), fusion, warnings, thresholding.
An `Except.error` is an exception escaping the `try` block. -/
def validateAux (config : AIValidatorConfig) (co : Collaborators)
    (input : ValidationInput) : Except String ValidationResult := do
  if config.enableQueryClassification then
    let classification ← co.classifyQuery input.query
    if classification.skip_validation then
      return { confidence := 1.0
               valid := true
               accuracy := { verified := true, verification_rate := 1.0, reason := none }
               context := { source_relevance := 1.0, source_usage_rate := 1.0, valid := true }
               hallucination := { detected := false, risk := 0, hallucinated_parts := none }
               warnings := []
               query_type := some classification.type
               skip_validation := some true }
  let accuracyResult ←
    if config.enableAccuracyCheck then co.checkAccuracy input.response input.sources
    else .ok { verified := true, verification_rate := 1.0, reason := none }
  let contextResult :=
    if config.enableContextValidation then
      validateContext config.useLLMJudge co.llmJudgeValidateContext
        input.query input.response input.sources
    else { source_relevance := 1.0, source_usage_rate := 1.0, valid := true }
  let hallucinationResult ←
    if config.enableHallucinationDetection then
      co.detectHallucination input.response input.sources
    else .ok { detected := false, risk := 0, hallucinated_parts := none }
  let confidenceResult := calculateConfidence accuracyResult contextResult hallucinationResult
    input.sources (some { accuracy := some config.enableAccuracyCheck
                          hallucination := some config.enableHallucinationDetection })
  let warnings := generateWarnings accuracyResult contextResult hallucinationResult input.sources
  let threshold := if config.confidenceThreshold = 0 then 0.7 else config.confidenceThreshold
  return { confidence := confidenceResult.confidence_score
           valid := decide (confidenceResult.confidence_score ≥ threshold)
           accuracy := accuracyResult
           context := contextResult
           hallucination := hallucinationResult
           warnings := warnings
           query_type := none
           skip_validation := none }

/-- `AIValidator.validate` (lines 165-237 of the concatenated
ConfidenceScorer.ts source file): the `try`/`catch` wrapper producing the
fail-closed result on any internal exception. -/
def validate (config : AIValidatorConfig) (co : Collaborators)
    (input : ValidationInput) : ValidationResult :=
  match validateAux config co input with
  | .ok r => r
  | .error msg =>
    { confidence := 0
      valid := false
      accuracy := { verified := false, verification_rate := 0, reason := some "validation_error" }
      context := { source_relevance := 0, source_usage_rate := 0, valid := false }
      hallucination := { detected := true, risk := 1.0, hallucinated_parts := none }
      warnings := ["Validation failed: " ++ msg]
      query_type := none
      skip_validation := none }

/-! ### LLMJudge.ts: JSON values, `JSON.parse`, `Number()` and the
verdict parser `parseValidationResult` -/

/-- JSON values as produced by `JSON.parse`.  Objects keep their members in
textual order; duplicate keys are resolved by `getField` taking the last
binding, as JavaScript object construction does. -/
inductive Json where
  | null : Json
  | bool (b : Bool) : Json
  | num (q : ℚ) : Json
  | str (s : String) : Json
  | arr (elems : List Json) : Json
  | obj (members : List (String × Json)) : Json

/-- Whitespace accepted by the JSON grammar. -/
def jsonWs (c : Char) : Bool := c = ' ' || c = '\t' || c = '\n' || c = '\r'

def hexDigitVal (c : Char) : Option Nat :=
  if '0' ≤ c ∧ c ≤ '9' then some (c.toNat - '0'.toNat)
  else if 'a' ≤ c ∧ c ≤ 'f' then some (c.toNat - 'a'.toNat + 10)
  else if 'A' ≤ c ∧ c ≤ 'F' then some (c.toNat - 'A'.toNat + 10)
  else none

def hex4 (a b c d : Char) : Option Nat := do
  let x1 ← hexDigitVal a
  let x2 ← hexDigitVal b
  let x3 ← hexDigitVal c
  let x4 ← hexDigitVal d
  pure (((x1 * 16 + x2) * 16 + x3) * 16 + x4)

def digitsToNat (l : List Char) : Nat :=
  l.foldl (fun a c => a * 10 + (c.toNat - '0'.toNat)) 0

/-- JSON string body parser (after the opening quote), with the standard
escapes.  A `\uXXXX` surrogate pair is combined; a lone surrogate, which a
Lean `Char` cannot carry, is replaced by U+FFFD (model boundary: the keys
and verdict fields this development reasons about are ASCII). -/
def pStringGo : Nat → List Char → List Char → Option (String × List Char)
  | 0, _, _ => none
  | _ + 1, _, [] => none
  | f + 1, acc, c :: rest =>
    if c = '"' then some (acc.reverse.asString, rest)
    else if c = '\\' then
      match rest with
      | [] => none
      | e :: rest2 =>
        if e = '"' then pStringGo f ('"' :: acc) rest2
        else if e = '\\' then pStringGo f ('\\' :: acc) rest2
        else if e = '/' then pStringGo f ('/' :: acc) rest2
        else if e = 'b' then pStringGo f ('\x08' :: acc) rest2
        else if e = 'f' then pStringGo f ('\x0c' :: acc) rest2
        else if e = 'n' then pStringGo f ('\n' :: acc) rest2
        else if e = 'r' then pStringGo f ('\r' :: acc) rest2
        else if e = 't' then pStringGo f ('\t' :: acc) rest2
        else if e = 'u' then
          match rest2 with
          | h1 :: h2 :: h3 :: h4 :: rest3 =>
            match hex4 h1 h2 h3 h4 with
            | none => none
            | some n =>
              if 0xD800 ≤ n ∧ n ≤ 0xDBFF then
                match rest3 with
                | '\\' :: 'u' :: g1 :: g2 :: g3 :: g4 :: rest4 =>
                  match hex4 g1 g2 g3 g4 with
                  | some m =>
                    if 0xDC00 ≤ m ∧ m ≤ 0xDFFF then
                      pStringGo f
                        (Char.ofNat (0x10000 + (n - 0xD800) * 0x400 + (m - 0xDC00)) :: acc) rest4
                    else pStringGo f ('\uFFFD' :: acc) rest3
                  | none => pStringGo f ('\uFFFD' :: acc) rest3
                | _ => pStringGo f ('\uFFFD' :: acc) rest3
              else if 0xDC00 ≤ n ∧ n ≤ 0xDFFF then pStringGo f ('\uFFFD' :: acc) rest3
              else pStringGo f (Char.ofNat n :: acc) rest3
          | _ => none
        else none
    else if c.toNat < 0x20 then none
    else pStringGo f (c :: acc) rest

/-- JSON number parser: `-? (0 | [1-9][0-9]*) (. [0-9]+)? ([eE][+-]?[0-9]+)?`. -/
def pNumber (cs : List Char) : Option (Json × List Char) := do
  let (neg, cs1) : Bool × List Char :=
    match cs with
    | '-' :: r => (true, r)
    | _ => (false, cs)
  let intD := cs1.takeWhile Char.isDigit
  let cs2 := cs1.dropWhile Char.isDigit
  if intD.isEmpty then none
  else if intD.length > 1 ∧ intD.head? = some '0' then none
  else
    let intVal : ℚ := (digitsToNat intD : ℚ)
    let step1 : Option (ℚ × List Char) :=
      match cs2 with
      | '.' :: r =>
        let fd := r.takeWhile Char.isDigit
        if fd.isEmpty then none
        else some (intVal + (digitsToNat fd : ℚ) / ((10 : ℚ) ^ fd.length),
                   r.dropWhile Char.isDigit)
      | _ => some (intVal, cs2)
    match step1 with
    | none => none
    | some (v, cs3) =>
      match cs3 with
      | 'e' :: r => pNumberExp neg v r
      | 'E' :: r => pNumberExp neg v r
      | _ => some (.num (if neg then -v else v), cs3)
where
  pNumberExp (neg : Bool) (v : ℚ) (r : List Char) : Option (Json × List Char) :=
    let (esign, r1) : ℤ × List Char :=
      match r with
      | '+' :: rr => (1, rr)
      | '-' :: rr => (-1, rr)
      | _ => (1, r)
    let ed := r1.takeWhile Char.isDigit
    if ed.isEmpty then none
    else
      let v1 := v * (10 : ℚ) ^ (esign * (digitsToNat ed : ℤ))
      some (.num (if neg then -v1 else v1), r1.dropWhile Char.isDigit)

mutual

/-- JSON value parser, fuel-bounded (`jsonParse` supplies ample fuel). -/
def pValue (fuel : Nat) (cs : List Char) : Option (Json × List Char) :=
  match fuel with
  | 0 => none
  | f + 1 =>
    let cs1 := cs.dropWhile jsonWs
    match cs1 with
    | [] => none
    | '{' :: rest =>
      match rest.dropWhile jsonWs with
      | '}' :: r2 => some (.obj [], r2)
      | _ => do
        let (ms, r2) ← pMembers f rest
        pure (.obj ms, r2)
    | '[' :: rest =>
      match rest.dropWhile jsonWs with
      | ']' :: r2 => some (.arr [], r2)
      | _ => do
        let (es, r2) ← pElements f rest
        pure (.arr es, r2)
    | '"' :: rest => do
      let (s, r2) ← pStringGo (rest.length + 1) [] rest
      pure (.str s, r2)
    | 't' :: 'r' :: 'u' :: 'e' :: rest => some (.bool true, rest)
    | 'f' :: 'a' :: 'l' :: 's' :: 'e' :: rest => some (.bool false, rest)
    | 'n' :: 'u' :: 'l' :: 'l' :: rest => some (.null, rest)
    | _ => pNumber cs1

/-- Object member list parser (after the opening brace). -/
def pMembers (fuel : Nat) (cs : List Char) : Option (List (String × Json) × List Char) :=
  match fuel with
  | 0 => none
  | f + 1 =>
    match cs.dropWhile jsonWs with
    | '"' :: rest => do
      let (k, r1) ← pStringGo (rest.length + 1) [] rest
      match r1.dropWhile jsonWs with
      | ':' :: r3 => do
        let (v, r4) ← pValue f r3
        match r4.dropWhile jsonWs with
        | ',' :: r6 => do
          let (ms, r7) ← pMembers f r6
          pure ((k, v) :: ms, r7)
        | '}' :: r6 => pure ([(k, v)], r6)
        | _ => none
      | _ => none
    | _ => none

/-- Array element list parser (after the opening bracket). -/
def pElements (fuel : Nat) (cs : List Char) : Option (List Json × List Char) :=
  match fuel with
  | 0 => none
  | f + 1 => do
    let (v, r1) ← pValue f cs
    match r1.dropWhile jsonWs with
    | ',' :: r2 => do
      let (es, r3) ← pElements f r2
      pure (v :: es, r3)
    | ']' :: r2 => pure ([v], r2)
    | _ => none

end

/-- `JSON.parse`: parse one value and require only whitespace after it. -/
def jsonParse (s : String) : Option Json :=
  let cs := s.data
  match pValue (2 * cs.length + 2) cs with
  | some (j, rest) => if (rest.dropWhile jsonWs).isEmpty then some j else none
  | none => none

/-- The greedy regex `result.match(/\{[\s\S]*\}/)`: the match spans from the
first opening brace to the last closing brace, when the latter comes after
the former; otherwise there is no match. -/
def extractJsonBlock (s : String) : Option String :=
  let cs := s.data
  match cs.findIdx? (fun c => c = '{'), cs.reverse.findIdx? (fun c => c = '}') with
  | some i, some jr =>
    let j := cs.length - 1 - jr
    if i < j then some (((cs.drop i).take (j - i + 1)).asString) else none
  | _, _ => none

/-- A JavaScript number as relevant here: NaN, the infinities, or a finite
value (modelled as a rational). -/
inductive JNum where
  | nan
  | posInf
  | negInf
  | val (q : ℚ)
deriving DecidableEq

def jsStrTrim (s : String) : List Char :=
  ((s.data.dropWhile jsWhitespace).reverse.dropWhile jsWhitespace).reverse

def digitsBase (b : Nat) (l : List Char) : Option Nat :=
  l.foldl
    (fun acc c => do
      let a ← acc
      let d ← hexDigitVal c
      if d < b then some (a * b + d) else none)
    (some 0)

def parseBaseLiteral (b : Nat) (l : List Char) : JNum :=
  if l.isEmpty then .nan
  else
    match digitsBase b l with
    | some n => .val (n : ℚ)
    | none => .nan

/-- `StrUnsignedDecimalLiteral` without `Infinity`: digits, optional
fraction, optional exponent; the whole input must be consumed. -/
def decimalLiteral (cs : List Char) : Option ℚ := do
  let intD := cs.takeWhile Char.isDigit
  let rest := cs.dropWhile Char.isDigit
  let (fracD, rest2) : List Char × List Char :=
    match rest with
    | '.' :: r => (r.takeWhile Char.isDigit, r.dropWhile Char.isDigit)
    | _ => ([], rest)
  if intD.isEmpty ∧ fracD.isEmpty then none
  else
    let base : ℚ := (digitsToNat intD : ℚ) + (digitsToNat fracD : ℚ) / ((10 : ℚ) ^ fracD.length)
    match rest2 with
    | [] => some base
    | e :: r =>
      if e = 'e' ∨ e = 'E' then
        let (esign, r1) : ℤ × List Char :=
          match r with
          | '+' :: rr => (1, rr)
          | '-' :: rr => (-1, rr)
          | _ => (1, r)
        let ed := r1.takeWhile Char.isDigit
        if ed.isEmpty ∨ ¬(r1.dropWhile Char.isDigit).isEmpty then none
        else some (base * (10 : ℚ) ^ (esign * (digitsToNat ed : ℤ)))
      else none

/-- The `Number(string)` coercion: trim, empty is 0, `0x`/`0o`/`0b`
literals (unsigned only), else an optionally signed decimal literal or
`Infinity`; anything else is NaN. -/
def jsStringToNumber (s : String) : JNum :=
  let t := jsStrTrim s
  if t.isEmpty then .val 0
  else
    match t with
    | '0' :: 'x' :: r => parseBaseLiteral 16 r
    | '0' :: 'X' :: r => parseBaseLiteral 16 r
    | '0' :: 'o' :: r => parseBaseLiteral 8 r
    | '0' :: 'O' :: r => parseBaseLiteral 8 r
    | '0' :: 'b' :: r => parseBaseLiteral 2 r
    | '0' :: 'B' :: r => parseBaseLiteral 2 r
    | _ =>
      let (sgn, t1) : ℚ × List Char :=
        match t with
        | '+' :: r => (1, r)
        | '-' :: r => (-1, r)
        | _ => (1, t)
      if t1 = ['I', 'n', 'f', 'i', 'n', 'i', 't', 'y'] then
        if sgn = 1 then .posInf else .negInf
      else
        match decimalLiteral t1 with
        | some q => .val (sgn * q)
        | none => .nan

/-- The `Number(v)` coercion on a parsed JSON value (`none` is a missing
field, i.e. `undefined`).  Arrays follow `ToPrimitive`: the empty array is
the empty string, a singleton is its element's string, longer arrays join
with commas and never coerce to a number. -/
def jsonToNumber (fuel : Nat) (j : Json) : JNum :=
  match fuel, j with
  | 0, _ => .nan
  | _, .null => .val 0
  | _, .bool b => .val (if b then 1 else 0)
  | _, .num q => .val q
  | _, .str s => jsStringToNumber s
  | _, .obj _ => .nan
  | _ + 1, .arr [] => .val 0
  | f + 1, .arr [x] =>
    match x with
    | .bool _ => .nan
    | _ => jsonToNumber f x
  | _, .arr _ => .nan

/-- `Number(v)` on an optional value; the fuel only bounds the
singleton-array unwrapping and any bound at least the nesting depth gives
the JavaScript behaviour (callers pass the length of the parsed text,
which exceeds the depth). -/
def jsToNumber (fuel : Nat) (o : Option Json) : JNum :=
  match o with
  | none => .nan
  | some j => jsonToNumber fuel j

/-- `Math.max(0, Math.min(1, Number(v) || 0))`: the `|| 0` turns NaN (and
0 itself) into 0 before the clamp, so an infinite value still clamps into
the unit interval. -/
def clampScore (n : JNum) : ℚ :=
  match n with
  | .nan => 0
  | .posInf => 1
  | .negInf => 0
  | .val q => max 0 (min 1 q)

/-- Property access `parsed.key` on a JavaScript object: the last binding
of a duplicated key wins; access on a non-object yields no value (the
parsed block always is an object, since it starts with a brace). -/
def getField (j : Json) (key : String) : Option Json :=
  match j with
  | .obj members => ((members.filter (fun m => m.1 == key)).getLast?).map (fun m => m.2)
  | _ => none

/-- Strict equality `parsed.valid === true`. -/
def isJsonTrue (o : Option Json) : Bool :=
  match o with
  | some (.bool true) => true
  | _ => false

/-- `LLMJudge.parseValidationResult` (LLMJudge.ts lines 140-164): extract
the brace-delimited block, `JSON.parse` it, coerce and clamp the two rates,
strictly compare `valid`; any failure up to parsing yields the
conservative defaults via the `catch`. -/
def parseValidationResult (result : String) : ContextResult :=
  match extractJsonBlock result with
  | none => { source_relevance := 0.5, source_usage_rate := 0.5, valid := false }
  | some block =>
    match jsonParse block with
    | none => { source_relevance := 0.5, source_usage_rate := 0.5, valid := false }
    | some parsed =>
      { source_relevance :=
          clampScore (jsToNumber block.length (getField parsed "source_relevance"))
        source_usage_rate :=
          clampScore (jsToNumber block.length (getField parsed "source_usage_rate"))
        valid := isJsonTrue (getField parsed "valid") }


/-! ### Specification-side definition for the lexical fallback (claim C5) -/

/-- The lexical fallback exactly as the claim words it: `source_relevance`
is `min(1.0, matched / max(1, tokens))` with a 0.5 default on zero tokens,
`source_usage_rate` is `qMatched / max(1, queryTokens)` with the same
default, and `valid` compares the returned relevance against 0.3. -/
def lexicalFallbackSpec (query response : String) (sources : List Source) : ContextResult :=
  let responseTokens := tokensLongerThan (jsCleanText response) 3
  let sourceTokens :=
    tokensLongerThan (String.intercalate " " (sources.map (fun s => jsCleanText s.content))) 3
  let matched := responseTokens.countP (fun w => sourceTokens.contains w)
  let relevance : ℚ :=
    if responseTokens.length = 0 then 0.5
    else min 1 ((matched : ℚ) / ((max 1 responseTokens.length : ℕ) : ℚ))
  let queryTokens := tokensLongerThan (jsCleanText query) 2
  let qMatched := queryTokens.countP (fun w => responseTokens.contains w)
  let usage : ℚ :=
    if queryTokens.length = 0 then 0.5
    else (qMatched : ℚ) / ((max 1 queryTokens.length : ℕ) : ℚ)
  { source_relevance := relevance
    source_usage_rate := usage
    valid := decide (relevance > 0.3) }

/-! ### Concrete instances used by witnesses -/

def demoSource : Source :=
  { content := "x", title := none, url := none, id := none, embedding := none }

def shortSource : Source :=
  { content := "short", title := none, url := none, id := none, embedding := none }

def demoConfig : AIValidatorConfig :=
  { confidenceThreshold := 0.7
    enableQueryClassification := true
    enableAccuracyCheck := false
    enableHallucinationDetection := false
    enableContextValidation := true
    useLLMJudge := false }

/-- Collaborators whose query classifier throws. -/
def failingCollaborators : Collaborators :=
  { classifyQuery := fun _ => .error "boom"
    checkAccuracy := fun _ _ => .ok { verified := true, verification_rate := 1, reason := none }
    detectHallucination := fun _ _ => .ok { detected := false, risk := 0, hallucinated_parts := none }
    llmJudgeValidateContext := fun _ _ _ =>
      .ok { source_relevance := 1, source_usage_rate := 1, valid := true } }

def demoInput : ValidationInput :=
  { query := "what is ai", response := "ai is a field", sources := [] }

/-! ### Helper lemmas -/

lemma round2_nonneg {x : ℚ} (h0 : 0 ≤ x) : 0 ≤ round2 x := by
  unfold round2
  have hr : (0 : ℤ) ≤ round (x * 100) := by
    rw [round_eq]
    exact Int.le_floor.mpr (by push_cast; linarith)
  exact div_nonneg (by exact_mod_cast hr) (by norm_num)

lemma round2_le_one {x : ℚ} (h1 : x ≤ 1) : round2 x ≤ 1 := by
  unfold round2
  have hr : round (x * 100) ≤ 100 := by
    rw [round_eq]
    have hlt : ⌊x * 100 + 1 / 2⌋ < 101 := Int.floor_lt.mpr (by push_cast; linarith)
    omega
  rw [div_le_one (by norm_num)]
  exact_mod_cast hr

lemma sourceQualityRaw_range (s : Source) :
    (1 : ℚ)/2 ≤ sourceQualityRaw s ∧ sourceQualityRaw s ≤ 1 := by
  unfold sourceQualityRaw
  split_ifs <;> norm_num

lemma sourceQualityOne_eq_raw (s : Source) : sourceQualityOne s = sourceQualityRaw s :=
  min_eq_left (sourceQualityRaw_range s).2

lemma calculateSourceQuality_pos_range (sources : List Source) (h : sources ≠ []) :
    (1 : ℚ)/2 ≤ calculateSourceQuality sources ∧ calculateSourceQuality sources ≤ 1 := by
  have hlen0 : sources.length ≠ 0 := fun hh => h (List.length_eq_zero.mp hh)
  have hpos : (0 : ℚ) < (sources.length : ℚ) := by
    exact_mod_cast Nat.pos_of_ne_zero hlen0
  unfold calculateSourceQuality
  rw [if_neg hlen0]
  have hlow : ∀ x ∈ sources.map sourceQualityOne, (1 : ℚ)/2 ≤ x := by
    intro x hx
    obtain ⟨s, _, rfl⟩ := List.mem_map.mp hx
    rw [sourceQualityOne_eq_raw]
    exact (sourceQualityRaw_range s).1
  have hhigh : ∀ x ∈ sources.map sourceQualityOne, x ≤ (1 : ℚ) := by
    intro x hx
    obtain ⟨s, _, rfl⟩ := List.mem_map.mp hx
    rw [sourceQualityOne_eq_raw]
    exact (sourceQualityRaw_range s).2
  have h1 := List.card_nsmul_le_sum (sources.map sourceQualityOne) _ hlow
  have h2 := List.sum_le_card_nsmul (sources.map sourceQualityOne) _ hhigh
  rw [List.length_map, nsmul_eq_mul] at h1 h2
  constructor
  · rw [le_div_iff₀ hpos]
    linarith
  · rw [div_le_one hpos]
    linarith

lemma calculateSourceQuality_unit (sources : List Source) :
    0 ≤ calculateSourceQuality sources ∧ calculateSourceQuality sources ≤ 1 := by
  rcases eq_or_ne sources [] with rfl | h
  · simp [calculateSourceQuality]
  · obtain ⟨ha, hb⟩ := calculateSourceQuality_pos_range sources h
    exact ⟨by linarith, hb⟩

lemma fusion_sum_range (a h : Bool) (x c y q : ℚ)
    (hx0 : 0 ≤ x) (hx1 : x ≤ 1) (hc0 : 0 ≤ c) (hc1 : c ≤ 1)
    (hy0 : 0 ≤ y) (hy1 : y ≤ 1) (hq0 : 0 ≤ q) (hq1 : q ≤ 1) :
    0 ≤ x * (confidenceWeights a h).accuracy + c * (confidenceWeights a h).context +
        y * (confidenceWeights a h).hallucination + q * (confidenceWeights a h).sourceQuality ∧
    x * (confidenceWeights a h).accuracy + c * (confidenceWeights a h).context +
        y * (confidenceWeights a h).hallucination + q * (confidenceWeights a h).sourceQuality ≤ 1 := by
  cases a <;> cases h <;> simp only [confidenceWeights] <;> norm_num <;>
    constructor <;> nlinarith

/-! ### Claim theorems -/

/-- C3: for every pair of enable flags, `calculateConfidence` selects
exactly the weights of the specification table, a disabled check always
receives weight 0, and in every regime the four weights (the active ones
plus the zero weights of the disabled checks) sum to exactly 1. -/
theorem confidenceWeights_regimes (a h : Bool) :
    ((a = false → (confidenceWeights a h).accuracy = 0) ∧
     (h = false → (confidenceWeights a h).hallucination = 0)) ∧
    (confidenceWeights a h).accuracy + (confidenceWeights a h).context +
      (confidenceWeights a h).hallucination + (confidenceWeights a h).sourceQuality = 1 ∧
    confidenceWeights false false =
      { accuracy := 0, context := 0.60, hallucination := 0, sourceQuality := 0.40 } ∧
    confidenceWeights false true =
      { accuracy := 0, context := 0.35, hallucination := 0.45, sourceQuality := 0.20 } ∧
    confidenceWeights true false =
      { accuracy := 0.50, context := 0.30, hallucination := 0, sourceQuality := 0.20 } ∧
    confidenceWeights true true =
      { accuracy := 0.35, context := 0.25, hallucination := 0.30, sourceQuality := 0.10 } := by
  cases a <;> cases h <;> decide

/-- Witness for C3 at the regime with both checks disabled. -/
theorem confidenceWeights_regimes_witness :
    (confidenceWeights false false).accuracy = 0 :=
  (confidenceWeights_regimes false false).1.1 rfl

/-- C4: with an empty source list, `validateContext` returns the zero
record immediately, for every query and response, every judge oracle and
regardless of the semantic-grader flag. -/
theorem validateContext_empty_sources (useJudge : Bool)
    (judge : String → String → List Source → Except String ContextResult)
    (q r : String) :
    validateContext useJudge judge q r [] =
      { source_relevance := 0, source_usage_rate := 0, valid := false } := rfl

/-- C8: with both the accuracy and the hallucination check disabled, the
confidence score is independent of the accuracy and hallucination inputs:
two runs agreeing on the context result and the source list return the
same `confidence_score` whatever `verification_rate` and `risk` are. -/
theorem confidence_ignores_disabled_inputs
    (acc acc' : AccuracyResult) (ctx : ContextResult) (hal hal' : HallucinationResult)
    (sources : List Source) :
    (calculateConfidence acc ctx hal sources
        (some { accuracy := some false, hallucination := some false })).confidence_score =
    (calculateConfidence acc' ctx hal' sources
        (some { accuracy := some false, hallucination := some false })).confidence_score := by
  simp [calculateConfidence, confidenceWeights]

/-- C9: every non-empty source list scores a source quality in
`[0.5, 1]`; moreover each per-source pre-cap quality is at most 1, so the
cap `Math.min(quality, 1.0)` never binds. -/
theorem sourceQuality_nonempty_range (sources : List Source) (h : sources ≠ []) :
    ((1 : ℚ)/2 ≤ calculateSourceQuality sources ∧ calculateSourceQuality sources ≤ 1) ∧
    ∀ s : Source, sourceQualityRaw s ≤ 1 ∧ sourceQualityOne s = sourceQualityRaw s :=
  ⟨calculateSourceQuality_pos_range sources h,
   fun s => ⟨(sourceQualityRaw_range s).2, sourceQualityOne_eq_raw s⟩⟩

/-- Witness for C9 on a one-element source list. -/
theorem sourceQuality_nonempty_range_witness :
    (1 : ℚ)/2 ≤ calculateSourceQuality [demoSource] ∧
    calculateSourceQuality [demoSource] ≤ 1 :=
  (sourceQuality_nonempty_range [demoSource] (List.cons_ne_nil _ _)).1

/-- C10: omitting the `enabledChecks` record, or omitting either of its
flags, behaves exactly like the all-checks-enabled regime, whose weights
are 0.35/0.25/0.30/0.10. -/
theorem calculateConfidence_default_enabled (acc : AccuracyResult) (ctx : ContextResult)
    (hal : HallucinationResult) (sources : List Source) :
    calculateConfidence acc ctx hal sources none =
      calculateConfidence acc ctx hal sources
        (some { accuracy := some true, hallucination := some true }) ∧
    (∀ hb : Option Bool,
      calculateConfidence acc ctx hal sources (some { accuracy := none, hallucination := hb }) =
        calculateConfidence acc ctx hal sources
          (some { accuracy := some true, hallucination := hb })) ∧
    (∀ ab : Option Bool,
      calculateConfidence acc ctx hal sources (some { accuracy := ab, hallucination := none }) =
        calculateConfidence acc ctx hal sources
          (some { accuracy := ab, hallucination := some true })) ∧
    (calculateConfidence acc ctx hal sources none).confidence_score =
      round2 (acc.verification_rate * 0.35 + ctx.source_relevance * 0.25 +
        (1 - hal.risk) * 0.30 + calculateSourceQuality sources * 0.10) :=
  ⟨rfl, fun _ => rfl, fun _ => rfl, rfl⟩


/-! ### Further helper lemmas (C2, C5, C6) -/

lemma clampScore_range (n : JNum) : 0 ≤ clampScore n ∧ clampScore n ≤ 1 := by
  cases n with
  | nan => exact ⟨by decide, by decide⟩
  | posInf => exact ⟨by decide, by decide⟩
  | negInf => exact ⟨by decide, by decide⟩
  | val q =>
    exact ⟨le_max_left 0 _, max_le (by norm_num) (min_le_left 1 q)⟩

lemma isJsonTrue_some {o : Option Json} (h : isJsonTrue o = true) :
    o = some (Json.bool true) := by
  cases o with
  | none => simp [isJsonTrue] at h
  | some j =>
    cases j with
    | bool b =>
      cases b with
      | true => rfl
      | false => simp [isJsonTrue] at h
    | null => simp [isJsonTrue] at h
    | num q => simp [isJsonTrue] at h
    | str t => simp [isJsonTrue] at h
    | arr l => simp [isJsonTrue] at h
    | obj m => simp [isJsonTrue] at h

lemma lex_relevance_eq (c n : ℕ) (hc : c ≤ n) :
    (if n > 0 then (c : ℚ) / (n : ℚ) else 0.5) =
      if n = 0 then 0.5 else min 1 ((c : ℚ) / ((max 1 n : ℕ) : ℚ)) := by
  rcases Nat.eq_zero_or_pos n with rfl | hpos
  · norm_num
  · rw [if_pos hpos, if_neg (Nat.pos_iff_ne_zero.mp hpos), max_eq_right hpos]
    have hle : (c : ℚ) / (n : ℚ) ≤ 1 := by
      rw [div_le_one (by exact_mod_cast hpos)]
      exact_mod_cast hc
    rw [min_eq_right hle]

lemma lex_relevance_min (c n : ℕ) (hc : c ≤ n) :
    min (if n > 0 then (c : ℚ) / (n : ℚ) else 0.5) 1.0 =
      (if n > 0 then (c : ℚ) / (n : ℚ) else 0.5) := by
  apply min_eq_left
  rcases Nat.eq_zero_or_pos n with rfl | hpos
  · norm_num
  · rw [if_pos hpos]
    have h1 : (1.0 : ℚ) = 1 := by norm_num
    rw [h1, div_le_one (by exact_mod_cast hpos)]
    exact_mod_cast hc

lemma lex_usage_eq (c n : ℕ) :
    (if n > 0 then (c : ℚ) / (n : ℚ) else 0.5) =
      if n = 0 then 0.5 else (c : ℚ) / ((max 1 n : ℕ) : ℚ) := by
  rcases Nat.eq_zero_or_pos n with rfl | hpos
  · norm_num
  · rw [if_pos hpos, if_neg (Nat.pos_iff_ne_zero.mp hpos), max_eq_right hpos]

/-! ### Claim theorems (continued) -/

/-- C2: on inputs whose verification rate, source relevance and risk lie
in the unit interval, the fused confidence score and every breakdown field
lie in the unit interval, each breakdown field is its unrounded value
rounded to two decimals, and the confidence score is some unit-interval
value rounded to two decimals. -/
theorem calculateConfidence_unit_range (acc : AccuracyResult) (ctx : ContextResult)
    (hal : HallucinationResult) (sources : List Source) (ec : Option EnabledChecks)
    (h1 : 0 ≤ acc.verification_rate) (h2 : acc.verification_rate ≤ 1)
    (h3 : 0 ≤ ctx.source_relevance) (h4 : ctx.source_relevance ≤ 1)
    (h5 : 0 ≤ hal.risk) (h6 : hal.risk ≤ 1) :
    (0 ≤ (calculateConfidence acc ctx hal sources ec).confidence_score ∧
     (calculateConfidence acc ctx hal sources ec).confidence_score ≤ 1) ∧
    ((calculateConfidence acc ctx hal sources ec).breakdown.accuracy_score =
        round2 acc.verification_rate ∧
     0 ≤ (calculateConfidence acc ctx hal sources ec).breakdown.accuracy_score ∧
     (calculateConfidence acc ctx hal sources ec).breakdown.accuracy_score ≤ 1) ∧
    ((calculateConfidence acc ctx hal sources ec).breakdown.context_score =
        round2 ctx.source_relevance ∧
     0 ≤ (calculateConfidence acc ctx hal sources ec).breakdown.context_score ∧
     (calculateConfidence acc ctx hal sources ec).breakdown.context_score ≤ 1) ∧
    ((calculateConfidence acc ctx hal sources ec).breakdown.hallucination_score =
        round2 (1 - hal.risk) ∧
     0 ≤ (calculateConfidence acc ctx hal sources ec).breakdown.hallucination_score ∧
     (calculateConfidence acc ctx hal sources ec).breakdown.hallucination_score ≤ 1) ∧
    ((calculateConfidence acc ctx hal sources ec).breakdown.source_quality =
        round2 (calculateSourceQuality sources) ∧
     0 ≤ (calculateConfidence acc ctx hal sources ec).breakdown.source_quality ∧
     (calculateConfidence acc ctx hal sources ec).breakdown.source_quality ≤ 1) ∧
    (∃ u, 0 ≤ u ∧ u ≤ 1 ∧
      (calculateConfidence acc ctx hal sources ec).confidence_score = round2 u) := by
  obtain ⟨hq0, hq1⟩ := calculateSourceQuality_unit sources
  have hy0 : (0 : ℚ) ≤ 1 - hal.risk := by linarith
  have hy1 : 1 - hal.risk ≤ 1 := by linarith
  obtain ⟨hs0, hs1⟩ := fusion_sum_range ((ec.bind (fun e => e.accuracy)).getD true)
    ((ec.bind (fun e => e.hallucination)).getD true)
    acc.verification_rate ctx.source_relevance (1 - hal.risk) (calculateSourceQuality sources)
    h1 h2 h3 h4 hy0 hy1 hq0 hq1
  exact ⟨⟨round2_nonneg hs0, round2_le_one hs1⟩,
    ⟨rfl, round2_nonneg h1, round2_le_one h2⟩,
    ⟨rfl, round2_nonneg h3, round2_le_one h4⟩,
    ⟨rfl, round2_nonneg hy0, round2_le_one hy1⟩,
    ⟨rfl, round2_nonneg hq0, round2_le_one hq1⟩,
    ⟨_, hs0, hs1, rfl⟩⟩

/-- Witness for C2 at concrete mid-range inputs. -/
theorem calculateConfidence_unit_range_witness :
    0 ≤ (calculateConfidence { verified := true, verification_rate := 1/2, reason := none }
        { source_relevance := 1/2, source_usage_rate := 1/2, valid := true }
        { detected := false, risk := 1/2, hallucinated_parts := none }
        [] none).confidence_score ∧
    (calculateConfidence { verified := true, verification_rate := 1/2, reason := none }
        { source_relevance := 1/2, source_usage_rate := 1/2, valid := true }
        { detected := false, risk := 1/2, hallucinated_parts := none }
        [] none).confidence_score ≤ 1 :=
  (calculateConfidence_unit_range _ _ _ [] none (by decide) (by decide) (by decide)
    (by decide) (by decide) (by decide)).1

/-- C5: on every non-empty source list the lexical fallback
`wordMatchingValidation` computes exactly the formulas of the claim, as
captured by `lexicalFallbackSpec`. -/
theorem wordMatching_matches_spec (q r : String) (sources : List Source)
    (_hne : sources ≠ []) :
    wordMatchingValidation q r sources = lexicalFallbackSpec q r sources := by
  unfold wordMatchingValidation lexicalFallbackSpec
  simp only [ContextResult.mk.injEq]
  refine ⟨?_, ?_, ?_⟩
  · exact (lex_relevance_min _ _ (List.countP_le_length _)).trans
      (lex_relevance_eq _ _ (List.countP_le_length _))
  · exact lex_usage_eq _ _
  · rw [lex_relevance_eq _ _ (List.countP_le_length
      (fun w => (tokensLongerThan (String.intercalate " "
        (sources.map (fun s => jsCleanText s.content))) 3).contains w))]

/-- Witness for C5 on a one-source instance. -/
theorem wordMatching_matches_spec_witness :
    wordMatchingValidation "what is alpha" "alpha beta gamma"
        [{ content := "alpha beta delta", title := none, url := none, id := none,
           embedding := none }] =
      lexicalFallbackSpec "what is alpha" "alpha beta gamma"
        [{ content := "alpha beta delta", title := none, url := none, id := none,
           embedding := none }] :=
  wordMatching_matches_spec _ _ _ (List.cons_ne_nil _ _)

/-- C6 counterexample: the claim says a non-numeric `source_relevance`
is treated as 0, but on a verdict whose `source_relevance` is the boolean
`true` the JavaScript coercion `Number(true) = 1` makes the parser return
1, not 0. -/
theorem parseValidationResult_nonNumeric_counterexample :
    (parseValidationResult
        "\x7b\"valid\": true, \"source_relevance\": true, \"source_usage_rate\": 0.5\x7d").source_relevance
      = 1 ∧
    ¬ (parseValidationResult
        "\x7b\"valid\": true, \"source_relevance\": true, \"source_usage_rate\": 0.5\x7d").source_relevance
      = 0 := by decide

/-- C6 (amended): `parseValidationResult` is total; it extracts the
greedy brace-delimited block and parses it; both returned rates always lie
in [0, 1] (values are clamped after JavaScript numeric coercion, under
which a NaN-coercing or missing value becomes 0); `valid` is true only
when the parsed field is exactly `true`; and on any extraction or parse
failure it returns exactly the conservative defaults. -/
theorem parseValidationResult_contract (raw : String) :
    (0 ≤ (parseValidationResult raw).source_relevance ∧
     (parseValidationResult raw).source_relevance ≤ 1 ∧
     0 ≤ (parseValidationResult raw).source_usage_rate ∧
     (parseValidationResult raw).source_usage_rate ≤ 1) ∧
    (extractJsonBlock raw = none →
      parseValidationResult raw =
        { source_relevance := 0.5, source_usage_rate := 0.5, valid := false }) ∧
    (∀ block, extractJsonBlock raw = some block → jsonParse block = none →
      parseValidationResult raw =
        { source_relevance := 0.5, source_usage_rate := 0.5, valid := false }) ∧
    (∀ block parsed, extractJsonBlock raw = some block → jsonParse block = some parsed →
      parseValidationResult raw =
        { source_relevance :=
            clampScore (jsToNumber block.length (getField parsed "source_relevance"))
          source_usage_rate :=
            clampScore (jsToNumber block.length (getField parsed "source_usage_rate"))
          valid := isJsonTrue (getField parsed "valid") }) ∧
    ((parseValidationResult raw).valid = true →
      ∃ block parsed, extractJsonBlock raw = some block ∧ jsonParse block = some parsed ∧
        getField parsed "valid" = some (Json.bool true)) := by
  rcases hE : extractJsonBlock raw with _ | block
  · have hres : parseValidationResult raw =
        { source_relevance := 0.5, source_usage_rate := 0.5, valid := false } := by
      simp only [parseValidationResult, hE]
    refine ⟨by rw [hres]; norm_num, fun _ => hres, ?_, ?_, ?_⟩
    · intro block hblock
      exact Option.noConfusion hblock
    · intro block parsed hblock
      exact Option.noConfusion hblock
    · intro hv
      rw [hres] at hv
      exact Bool.noConfusion hv
  · rcases hP : jsonParse block with _ | parsed
    · have hres : parseValidationResult raw =
          { source_relevance := 0.5, source_usage_rate := 0.5, valid := false } := by
        simp only [parseValidationResult, hE, hP]
      refine ⟨by rw [hres]; norm_num, ?_, ?_, ?_, ?_⟩
      · intro hnone
        exact Option.noConfusion hnone
      · intro b hbb _
        exact hres
      · intro b p hbb hpp
        injection hbb with hbeq
        subst hbeq
        exact Option.noConfusion ((hP.symm.trans hpp))
      · intro hv
        rw [hres] at hv
        exact Bool.noConfusion hv
    · have hres : parseValidationResult raw =
          { source_relevance :=
              clampScore (jsToNumber block.length (getField parsed "source_relevance"))
            source_usage_rate :=
              clampScore (jsToNumber block.length (getField parsed "source_usage_rate"))
            valid := isJsonTrue (getField parsed "valid") } := by
        simp only [parseValidationResult, hE, hP]
      refine ⟨?_, ?_, ?_, ?_, ?_⟩
      · rw [hres]
        exact ⟨(clampScore_range _).1, (clampScore_range _).2,
          (clampScore_range _).1, (clampScore_range _).2⟩
      · intro hnone
        exact Option.noConfusion hnone
      · intro b hbb hpp
        injection hbb with hbeq
        subst hbeq
        exact Option.noConfusion (hP.symm.trans hpp)
      · intro b p hbb hpp
        injection hbb with hbeq
        subst hbeq
        have hpp2 := hP.symm.trans hpp
        injection hpp2 with hpeq
        subst hpeq
        exact hres
      · intro hv
        rw [hres] at hv
        exact ⟨block, parsed, rfl, hP, isJsonTrue_some hv⟩

/-- Witness for C6 (amended) on an input with no brace-delimited block. -/
theorem parseValidationResult_contract_witness :
    parseValidationResult "no json here" =
      { source_relevance := 0.5, source_usage_rate := 0.5, valid := false } :=
  (parseValidationResult_contract "no json here").2.1 (by decide)

/-- C7 counterexample: at the claimed scenario the code returns a
confidence score of 0.23, not the 0.22 the claim asserts (the claim
restates the specification formula, which itself evaluates to 0.23). -/
theorem fusion_scenarioC_counterexample :
    calculateSourceQuality [shortSource] = 0.5 ∧
    (calculateConfidence { verified := true, verification_rate := 0.2, reason := none }
        { source_relevance := 0.2, source_usage_rate := 0.2, valid := true }
        { detected := false, risk := 0.8, hallucinated_parts := none }
        [shortSource]
        (some { accuracy := some true, hallucination := some true })).confidence_score = 0.23 ∧
    ¬ (calculateConfidence { verified := true, verification_rate := 0.2, reason := none }
        { source_relevance := 0.2, source_usage_rate := 0.2, valid := true }
        { detected := false, risk := 0.8, hallucinated_parts := none }
        [shortSource]
        (some { accuracy := some true, hallucination := some true })).confidence_score = 0.22 := by
  decide

/-- C7 (amended): with all four checks enabled, inputs with verification
rate 0.2, source relevance 0.2, risk 0.8 and source quality 0.5 fuse to
the confidence score 0.2*0.35 + 0.2*0.25 + 0.2*0.30 + 0.5*0.10 = 0.23
with level low, and the warning list contains the low-accuracy,
low-context-relevance and high-hallucination-risk warnings. -/
theorem fusion_scenarioC_amended (acc : AccuracyResult) (ctx : ContextResult)
    (hal : HallucinationResult) (sources : List Source)
    (h1 : acc.verification_rate = 0.2) (h2 : ctx.source_relevance = 0.2)
    (h3 : hal.risk = 0.8) (h4 : calculateSourceQuality sources = 0.5) :
    ((calculateConfidence acc ctx hal sources
        (some { accuracy := some true, hallucination := some true })).confidence_score = 0.23 ∧
     (calculateConfidence acc ctx hal sources
        (some { accuracy := some true, hallucination := some true })).level =
       ConfidenceLevel.low) ∧
    ("Low accuracy verification rate" ∈ generateWarnings acc ctx hal sources ∧
     "Low context relevance" ∈ generateWarnings acc ctx hal sources ∧
     "High hallucination risk detected" ∈ generateWarnings acc ctx hal sources) := by
  have hcs : (calculateConfidence acc ctx hal sources
      (some { accuracy := some true, hallucination := some true })).confidence_score =
      round2 (acc.verification_rate * 0.35 + ctx.source_relevance * 0.25 +
        (1 - hal.risk) * 0.30 + calculateSourceQuality sources * 0.10) := rfl
  have hlv : (calculateConfidence acc ctx hal sources
      (some { accuracy := some true, hallucination := some true })).level =
      (if (acc.verification_rate * 0.35 + ctx.source_relevance * 0.25 +
          (1 - hal.risk) * 0.30 + calculateSourceQuality sources * 0.10 : ℚ) ≥ 0.8 then
        ConfidenceLevel.high
      else if (acc.verification_rate * 0.35 + ctx.source_relevance * 0.25 +
          (1 - hal.risk) * 0.30 + calculateSourceQuality sources * 0.10 : ℚ) ≥ 0.5 then
        ConfidenceLevel.medium
      else ConfidenceLevel.low) := rfl
  refine ⟨⟨?_, ?_⟩, ?_, ?_, ?_⟩
  · rw [hcs, h1, h2, h3, h4]
    decide
  · rw [hlv, h1, h2, h3, h4]
    decide
  · unfold generateWarnings
    rw [h1]
    simp
    norm_num
  · unfold generateWarnings
    rw [h2]
    simp
    norm_num
  · unfold generateWarnings
    rw [h3]
    simp
    norm_num

/-- Witness for C7 (amended) on concrete records. -/
theorem fusion_scenarioC_amended_witness :
    (calculateConfidence { verified := true, verification_rate := 0.2, reason := none }
        { source_relevance := 0.2, source_usage_rate := 0.2, valid := true }
        { detected := false, risk := 0.8, hallucinated_parts := none }
        [shortSource]
        (some { accuracy := some true, hallucination := some true })).confidence_score = 0.23 ∧
    (calculateConfidence { verified := true, verification_rate := 0.2, reason := none }
        { source_relevance := 0.2, source_usage_rate := 0.2, valid := true }
        { detected := false, risk := 0.8, hallucinated_parts := none }
        [shortSource]
        (some { accuracy := some true, hallucination := some true })).level =
      ConfidenceLevel.low :=
  (fusion_scenarioC_amended _ _ _ [shortSource] (by decide) (by decide) (by decide)
    (by decide)).1

/-- C1: the orchestrator always resolves to a result: either the try
block succeeds and its result is returned verbatim, or some internal step
threw and the returned record is exactly the fail-closed record with the
single warning carrying the thrown message. -/
theorem validate_total_never_raises (config : AIValidatorConfig) (co : Collaborators)
    (input : ValidationInput) :
    ((∃ res, validateAux config co input = Except.ok res ∧
        validate config co input = res) ∨
     (∃ msg, validateAux config co input = Except.error msg)) ∧
    (∀ msg, validateAux config co input = Except.error msg →
      validate config co input =
        { confidence := 0
          valid := false
          accuracy := { verified := false, verification_rate := 0,
                        reason := some "validation_error" }
          context := { source_relevance := 0, source_usage_rate := 0, valid := false }
          hallucination := { detected := true, risk := 1.0, hallucinated_parts := none }
          warnings := ["Validation failed: " ++ msg]
          query_type := none
          skip_validation := none }) := by
  constructor
  · cases hv : validateAux config co input with
    | ok res =>
      refine Or.inl ⟨res, rfl, ?_⟩
      unfold validate
      rw [hv]
    | error msg => exact Or.inr ⟨msg, rfl⟩
  · intro msg hmsg
    unfold validate
    rw [hmsg]

/-- Witness for C1: a throwing query classifier produces exactly the
fail-closed record. -/
theorem validate_total_never_raises_witness :
    validate demoConfig failingCollaborators demoInput =
      { confidence := 0
        valid := false
        accuracy := { verified := false, verification_rate := 0,
                      reason := some "validation_error" }
        context := { source_relevance := 0, source_usage_rate := 0, valid := false }
        hallucination := { detected := true, risk := 1.0, hallucinated_parts := none }
        warnings := ["Validation failed: boom"]
        query_type := none
        skip_validation := none } :=
  (validate_total_never_raises demoConfig failingCollaborators demoInput).2 "boom" rfl


end AIValidatorModel
